import Mathlib

/-!
Shallow embedding of the `timcash/code_cad` repository: nine standalone Python
scripts that drive the CadQuery CAD library.  Two levels of modelling are used:

* a syntactic embedding (`Stmt`): each script's statement list is transcribed
  from the source, so that structural claims (loops, branches, exception
  handlers, files read and written, print statements, visualization call
  sites) become decidable facts about concrete data;
* an executable semantic model of `step_view.py` (`stepViewRun`), which is the
  one script whose branching behaviour depends on runtime data (the number of
  solids in the imported STEP file);
* a set-of-points geometric model of the teeth loop of
  `examples/example4_geared_wheel.py` (`teethLoop`), over `ℝ × ℝ × ℝ`.
-/

namespace CodeCad

/-- Camera parameters passed to the `show` visualization routine
(`width=800, height=800, zoom=2, roll=-20, elevation=-30` in `step_view.py`). -/
structure CamParams where
  width : Int
  height : Int
  zoom : Int
  roll : Int
  elevation : Int

/-- Syntactic embedding of the statements of the repository scripts.

* `paramAssign` — a constant parameter assignment (the literal assignments at
  the top of `example4_geared_wheel.py`);
* `libCall` — any other CadQuery library call or plain assignment, carrying a
  transcription of the source line;
* `importStepFile` — `cq.importers.importStep(file)`;
* `exportArtifact` — a call writing an output file (`exporters.export`,
  `assy.save`);
* `printLine` — a `print` of (a template of) a message;
* `printExcMessage` — a `print` that interpolates the caught exception's
  message after the given text (only in the gear script's handler);
* `visShow` — a `show`/`show_object` visualization call, with its camera
  parameters (if any) and its screenshot output file (if any);
* `forLoop`, `ifStmt`, `tryExcept`, `raiseStmt` — control flow;
* `commented` — commented-out code that is never executed. -/
inductive Stmt where
  | paramAssign (name : String)
  | libCall (desc : String)
  | importStepFile (file : String)
  | exportArtifact (file : String)
  | printLine (msg : String)
  | printExcMessage (pre : String)
  | visShow (cam : Option CamParams) (screenshot : Option String)
  | forLoop (body : List Stmt)
  | ifStmt (thenBranch elseBranch : List Stmt)
  | tryExcept (body handler : List Stmt)
  | raiseStmt
  | commented (code : Stmt)

mutual
/-- Number of for-loops in a statement; commented-out code does not count. -/
def countLoop : Stmt → Nat
  | .forLoop b => 1 + countLoopL b
  | .ifStmt t e => countLoopL t + countLoopL e
  | .tryExcept b h => countLoopL b + countLoopL h
  | _ => 0

/-- Number of for-loops in a statement list. -/
def countLoopL : List Stmt → Nat
  | [] => 0
  | s :: ss => countLoop s + countLoopL ss
end

mutual
/-- Number of conditional (`if`) statements; commented-out code does not count. -/
def countIf : Stmt → Nat
  | .forLoop b => countIfL b
  | .ifStmt t e => 1 + countIfL t + countIfL e
  | .tryExcept b h => countIfL b + countIfL h
  | _ => 0

/-- Number of conditional statements in a statement list. -/
def countIfL : List Stmt → Nat
  | [] => 0
  | s :: ss => countIf s + countIfL ss
end

mutual
/-- Number of try/except handlers; commented-out code does not count. -/
def countTry : Stmt → Nat
  | .forLoop b => countTryL b
  | .ifStmt t e => countTryL t + countTryL e
  | .tryExcept b h => 1 + countTryL b + countTryL h
  | _ => 0

/-- Number of try/except handlers in a statement list. -/
def countTryL : List Stmt → Nat
  | [] => 0
  | s :: ss => countTry s + countTryL ss
end

mutual
/-- Number of `raise` statements; commented-out code does not count. -/
def countRaise : Stmt → Nat
  | .forLoop b => countRaiseL b
  | .ifStmt t e => countRaiseL t + countRaiseL e
  | .tryExcept b h => countRaiseL b + countRaiseL h
  | .raiseStmt => 1
  | _ => 0

/-- Number of `raise` statements in a statement list. -/
def countRaiseL : List Stmt → Nat
  | [] => 0
  | s :: ss => countRaise s + countRaiseL ss
end

mutual
/-- Input files read by a statement (STEP imports); commented-out code reads nothing. -/
def readsOf : Stmt → List String
  | .importStepFile f => [f]
  | .forLoop b => readsOfL b
  | .ifStmt t e => readsOfL t ++ readsOfL e
  | .tryExcept b h => readsOfL b ++ readsOfL h
  | _ => []

/-- Input files read by a statement list. -/
def readsOfL : List Stmt → List String
  | [] => []
  | s :: ss => readsOf s ++ readsOfL ss
end

mutual
/-- Output files a statement can write (exports and screenshots);
commented-out code writes nothing. -/
def writesOf : Stmt → List String
  | .exportArtifact f => [f]
  | .visShow _ (some f) => [f]
  | .forLoop b => writesOfL b
  | .ifStmt t e => writesOfL t ++ writesOfL e
  | .tryExcept b h => writesOfL b ++ writesOfL h
  | _ => []

/-- Output files a statement list can write. -/
def writesOfL : List Stmt → List String
  | [] => []
  | s :: ss => writesOf s ++ writesOfL ss
end

mutual
/-- Output files that only commented-out code would write. -/
def commentedWrites : Stmt → List String
  | .commented s => writesOf s
  | .forLoop b => commentedWritesL b
  | .ifStmt t e => commentedWritesL t ++ commentedWritesL e
  | .tryExcept b h => commentedWritesL b ++ commentedWritesL h
  | _ => []

/-- Output files that only commented-out code in a statement list would write. -/
def commentedWritesL : List Stmt → List String
  | [] => []
  | s :: ss => commentedWrites s ++ commentedWritesL ss
end

mutual
/-- Messages a statement can print (over all branches); commented-out code prints nothing. -/
def printsOf : Stmt → List String
  | .printLine m => [m]
  | .forLoop b => printsOfL b
  | .ifStmt t e => printsOfL t ++ printsOfL e
  | .tryExcept b h => printsOfL b ++ printsOfL h
  | _ => []

/-- Messages a statement list can print. -/
def printsOfL : List Stmt → List String
  | [] => []
  | s :: ss => printsOf s ++ printsOfL ss
end

mutual
/-- Number of visualization call sites that pass fixed camera parameters. -/
def camSites : Stmt → Nat
  | .visShow (some _) _ => 1
  | .forLoop b => camSitesL b
  | .ifStmt t e => camSitesL t + camSitesL e
  | .tryExcept b h => camSitesL b + camSitesL h
  | _ => 0

/-- Number of camera-parameter visualization call sites in a statement list. -/
def camSitesL : List Stmt → Nat
  | [] => 0
  | s :: ss => camSites s + camSitesL ss
end

mutual
/-- Bodies of all for-loops in a statement. -/
def loopBodies : Stmt → List (List Stmt)
  | .forLoop b => b :: loopBodiesL b
  | .ifStmt t e => loopBodiesL t ++ loopBodiesL e
  | .tryExcept b h => loopBodiesL b ++ loopBodiesL h
  | _ => []

/-- Bodies of all for-loops in a statement list. -/
def loopBodiesL : List Stmt → List (List Stmt)
  | [] => []
  | s :: ss => loopBodies s ++ loopBodiesL ss
end

/-- Is the statement a constant parameter assignment? -/
def isParamAssign : Stmt → Bool
  | .paramAssign _ => true
  | _ => false

/-! ### The nine scripts, transcribed statement by statement from the source.
Imports are elided; `libCall` strings paraphrase the source line they stand
for.  Decorative emoji prefixes of the gear script's prints are elided. -/

/-- `src/example_2_spline.py`. -/
def example_2_spline : List Stmt :=
  [ .libCall "s = cq.Workplane XY",
    .libCall "s = s.moveTo 10 0",
    .libCall "s = s.lineTo 10 10",
    .libCall "s = s.lineTo 0 10",
    .libCall "s = s.spline [(5,5),(10,0)] tangents [(1,0),(1,0)] includeCurrent",
    .libCall "s = s.close",
    .libCall "result = s.extrude 1",
    .visShow none none ]

/-- `src/example_3_shell.py`. -/
def example_3_shell : List Stmt :=
  [ .libCall "result = cq.Workplane XY box 10 10 10 faces gtZ shell 1.0",
    .visShow none none ]

/-- `src/step_dimension.py`. -/
def step_dimension : List Stmt :=
  [ .importStepFile "test.step",
    .libCall "all_solids = result.solids().objects",
    .printLine "Found N solid(s).",
    .printLine "--------------------",
    .forLoop
      [ .libCall "bb = solid.BoundingBox()",
        .printLine "Solid i:",
        .printLine "  Length (X): bb.xlen",
        .printLine "  Width  (Y): bb.ylen",
        .printLine "  Height (Z): bb.zlen",
        .printLine "--------------------" ],
    .libCall "total_bb = result.val().BoundingBox()",
    .printLine "Total Dimensions of the Entire Part:",
    .printLine "  Length (X): total_bb.xlen",
    .printLine "  Width  (Y): total_bb.ylen",
    .printLine "  Height (Z): total_bb.zlen",
    .printLine "--------------------" ]

/-- `src/step_render.py`. -/
def step_render : List Stmt :=
  [ .importStepFile "test.step",
    .exportArtifact "test2.svg" ]

/-- The camera parameters of both `show` calls in `src/step_view.py`. -/
def viewCam : CamParams :=
  { width := 800, height := 800, zoom := 2, roll := -20, elevation := -30 }

/-- `src/step_view.py`. -/
def step_view : List Stmt :=
  [ .importStepFile "test.step",
    .libCall "all_solids = result.solids().objects",
    .printLine "Found N solids in the original object.",
    .ifStmt
      [ .libCall "remaining_solids = all_solids[13:]",
        .printLine "Keeping N solids after removing the first 5.",
        .ifStmt
          [ .libCall "remaining_shape = cq.Compound.makeCompound remaining_solids",
            .printLine "Showing the object with the first 5 solids removed.",
            .visShow (some viewCam) (some "img.png") ]
          [ .printLine "No solids remaining after removal." ] ]
      [ .printLine "Fewer than 6 solids found, so none were removed.",
        .visShow (some viewCam) (some "img.png") ] ]

/-- `src/test.py`. -/
def test_py : List Stmt :=
  [ .importStepFile "test.step",
    .libCall "solids = result.solids().objects",
    .printLine "Found N solid(s)",
    .forLoop
      [ .printLine "  Solid i:",
        .libCall "faces = solid.Faces()",
        .printLine "    Found N face(s)",
        .libCall "edges = solid.Edges()",
        .printLine "    Found N edge(s)",
        .libCall "vertices = solid.Vertices()",
        .printLine "    Found N vertex(s)" ] ]

/-- The nine constant parameter assignments at the top of
`src/examples/example4_geared_wheel.py` (before the `try`). -/
def gearParams : List Stmt :=
  [ .paramAssign "outer_diameter",
    .paramAssign "inner_diameter",
    .paramAssign "thickness",
    .paramAssign "tooth_height",
    .paramAssign "tooth_width",
    .paramAssign "num_teeth",
    .paramAssign "mounting_hole_diameter",
    .paramAssign "num_mounting_holes",
    .paramAssign "mounting_hole_radius" ]

/-- Body of the teeth loop (lines 44-47 of the gear script). -/
def gearTeethLoopBody : List Stmt :=
  [ .libCall "angle = i * 360.0 / num_teeth",
    .libCall "rotated_tooth = tooth.rotate (0,0,0) (0,0,1) angle",
    .libCall "teeth = teeth.union rotated_tooth" ]

/-- Body of the mounting-holes loop (lines 61-64 of the gear script). -/
def gearHolesLoopBody : List Stmt :=
  [ .libCall "angle = i * 360.0 / num_mounting_holes",
    .libCall "rotated_hole = base_hole.rotate (0,0,0) (0,0,1) angle",
    .libCall "mounting_holes = mounting_holes.union rotated_hole" ]

/-- Body of the `try` block of the gear script (lines 24-83). -/
def gearBody : List Stmt :=
  [ .libCall "wheel = cq.Workplane XY cylinder thickness outer_diameter/2",
    .printLine "Created wheel body",
    .libCall "wheel = wheel.faces gtZ workplane hole inner_diameter",
    .printLine "Created center hole",
    .libCall "tooth = triangle profile moveTo lineTo lineTo close extrude thickness",
    .printLine "Created tooth profile",
    .libCall "teeth = cq.Workplane XY",
    .forLoop gearTeethLoopBody,
    .printLine "Created 20 teeth in circular pattern",
    .libCall "result = wheel.union teeth",
    .printLine "Combined wheel with teeth",
    .libCall "base_hole = cq.Workplane XY moveTo mounting_hole_radius 0 cylinder",
    .libCall "mounting_holes = cq.Workplane XY",
    .forLoop gearHolesLoopBody,
    .printLine "Created 4 mounting holes",
    .libCall "result = result.cut mounting_holes",
    .printLine "Cut mounting holes from wheel",
    .commented (.libCall "result = result.edges vertZ fillet 1.0"),
    .printLine "Displaying 3D model...",
    .visShow none none,
    .printLine "Geared wheel created successfully!",
    .printLine "Outer diameter: 80.0mm",
    .printLine "Inner diameter: 20.0mm",
    .printLine "Thickness: 8.0mm",
    .printLine "Number of teeth: 20",
    .printLine "Number of mounting holes: 4" ]

/-- The `except Exception as e` handler of the gear script (lines 85-87). -/
def gearHandler : List Stmt :=
  [ .printExcMessage "Error creating geared wheel: ",
    .printLine "This might be due to CadQuery version compatibility or geometry issues." ]

/-- `src/examples/example4_geared_wheel.py`: nine constant parameter
assignments followed by a single try/except wrapping everything else. -/
def example4_geared_wheel : List Stmt :=
  gearParams ++ [ .tryExcept gearBody gearHandler ]

/-- Single-quote character, used in printed messages of `example_5_colors.py`. -/
def squote : String := String.singleton (Char.ofNat 39)

/-- The final print of `example_5_colors.py`:
`Assembly saved as 'colored_assembly.step'`. -/
def savedMsg : String :=
  "Assembly saved as " ++ squote ++ "colored_assembly.step" ++ squote

/-- `src/examples/example_5_colors.py`. -/
def example_5_colors : List Stmt :=
  [ .libCall "red_box = Workplane box 10 10 10",
    .libCall "blue_cylinder = Workplane cylinder radius 5 height 15",
    .libCall "green_sphere = Workplane sphere radius 6",
    .libCall "assy = Assembly red_box name red_box color 1 0 0 1",
    .libCall "assy = assy.add blue_cylinder loc (20,0,0) name blue_cylinder color 0 0 1 1",
    .libCall "assy = assy.add green_sphere loc (0,20,0) name green_sphere color 0 1 0 1",
    .visShow none none,
    .commented (.exportArtifact "colored_assembly.step"),
    .printLine "Assembly created with 3 colored parts:",
    .printLine "- Red box at origin",
    .printLine "- Blue cylinder at (20, 0, 0)",
    .printLine "- Green sphere at (0, 20, 0)",
    .printLine savedMsg ]

/-- `src/examples/example_1_plate_with_hole.py`. -/
def example_1_plate_with_hole : List Stmt :=
  [ .libCall "result = cq.Workplane XY box 10 10 1 faces gtZ workplane hole 5",
    .visShow none none ]

/-- All nine scripts of the repository, with their paths under `src/`. -/
def repoScripts : List (String × List Stmt) :=
  [ ("example_2_spline.py", example_2_spline),
    ("example_3_shell.py", example_3_shell),
    ("step_dimension.py", step_dimension),
    ("step_render.py", step_render),
    ("step_view.py", step_view),
    ("test.py", test_py),
    ("examples/example4_geared_wheel.py", example4_geared_wheel),
    ("examples/example_1_plate_with_hole.py", example_1_plate_with_hole),
    ("examples/example_5_colors.py", example_5_colors) ]

/-- Total number of for-loops across the repository. -/
def totalLoops : Nat := (repoScripts.map (fun p => countLoopL p.2)).sum

/-- Total number of conditionals across the repository. -/
def totalIfs : Nat := (repoScripts.map (fun p => countIfL p.2)).sum

/-- Total number of try/except handlers across the repository. -/
def totalTrys : Nat := (repoScripts.map (fun p => countTryL p.2)).sum

/-- All input files the repository reads, in script order. -/
def allReads : List String := (repoScripts.map (fun p => readsOfL p.2)).flatten

/-- All output files the repository can write, in script order. -/
def allWrites : List String := (repoScripts.map (fun p => writesOfL p.2)).flatten

/-- Number of scripts containing at least one visualization call with fixed
camera parameters. -/
def scriptsWithCamParams : Nat :=
  (repoScripts.filter (fun p => camSitesL p.2 != 0)).length

/-- Total number of visualization call sites with fixed camera parameters. -/
def totalCamSites : Nat := (repoScripts.map (fun p => camSitesL p.2)).sum

/-! ### Semantic model of `src/step_view.py`

The script's behaviour depends only on the list of solids of the imported
shape, so it is modelled as a function of that list (over an arbitrary
element type).  The record captures the printed messages, the list of solids
kept, which shape (if any) is visualized, whether the removal branch was
taken, and whether a screenshot file is produced. -/

/-- Observable outcome of one run of `step_view.py`. -/
structure ViewRun (α : Type) where
  messages : List String
  kept : List α
  shownOriginal : Bool
  shownRemaining : Bool
  removalBranch : Bool
  screenshotWritten : Bool

/-- Semantics of `src/step_view.py` on an imported shape with the given list
of solids.  The Python `if remaining_solids:` truthiness test is rendered as
an emptiness test with the two branches swapped. -/
def stepViewRun {α : Type} (solids : List α) : ViewRun α :=
  let foundMsg := "Found " ++ toString solids.length ++ " solids in the original object."
  if 8 < solids.length then
    let remaining := solids.drop 13
    let keepMsg := "Keeping " ++ toString remaining.length ++
      " solids after removing the first 5."
    if remaining.isEmpty then
      { messages := [foundMsg, keepMsg, "No solids remaining after removal."]
        kept := remaining
        shownOriginal := false
        shownRemaining := false
        removalBranch := true
        screenshotWritten := false }
    else
      { messages := [foundMsg, keepMsg,
          "Showing the object with the first 5 solids removed."]
        kept := remaining
        shownOriginal := false
        shownRemaining := true
        removalBranch := true
        screenshotWritten := true }
  else
    { messages := [foundMsg, "Fewer than 6 solids found, so none were removed."]
      kept := solids
      shownOriginal := true
      shownRemaining := false
      removalBranch := false
      screenshotWritten := true }

/-! ### Geometric model of the teeth loop of `example4_geared_wheel.py`

Solids are modelled as sets of points of `ℝ × ℝ × ℝ`.  The tooth profile is
the triangle with vertices `(outer_diameter/2 - tooth_height, 0)`,
`(outer_diameter/2, tooth_width/2)`, `(outer_diameter/2, -tooth_width/2)`
extruded from `z = 0` to `z = thickness`, exactly as built on lines 34-39 of
the script; `rotate((0,0,0), (0,0,1), angle)` is rotation about the Z axis
by `angle` degrees. -/

/-- A point of 3-space. -/
abbrev Point : Type := ℝ × ℝ × ℝ

/-- A solid, modelled as its set of points. -/
abbrev Shape : Type := Set Point

/-- Parameter `outer_diameter = 80.0` of the gear script. -/
def outer_diameter : ℝ := 80

/-- Parameter `thickness = 8.0` of the gear script. -/
def thickness : ℝ := 8

/-- Parameter `tooth_height = 6.0` of the gear script. -/
def tooth_height : ℝ := 6

/-- Parameter `tooth_width = 4.0` of the gear script. -/
def tooth_width : ℝ := 4

/-- Parameter `num_teeth = 20` of the gear script. -/
def num_teeth : ℕ := 20

/-- `q` is sent to `p` by the rotation of `a` degrees about the Z axis. -/
def rotZ (a : ℝ) (q p : Point) : Prop :=
  p.1 = Real.cos (a * Real.pi / 180) * q.1 - Real.sin (a * Real.pi / 180) * q.2.1 ∧
  p.2.1 = Real.sin (a * Real.pi / 180) * q.1 + Real.cos (a * Real.pi / 180) * q.2.1 ∧
  p.2.2 = q.2.2

/-- The copy of shape `s` rotated by `a` degrees about the Z axis
(`s.rotate((0, 0, 0), (0, 0, 1), a)` in the script). -/
def rotateShape (a : ℝ) (s : Shape) : Shape :=
  { p | ∃ q, q ∈ s ∧ rotZ a q p }

/-- The fixed tooth solid: the closed triangular profile of lines 34-38,
extruded to `thickness` (line 39), as the set of convex combinations of the
three profile vertices at each height `0 ≤ z ≤ thickness`. -/
def toothSolid : Shape :=
  { p | ∃ u v w : ℝ, 0 ≤ u ∧ 0 ≤ v ∧ 0 ≤ w ∧ u + v + w = 1 ∧
      p.1 = u * (outer_diameter / 2 - tooth_height) +
        v * (outer_diameter / 2) + w * (outer_diameter / 2) ∧
      p.2.1 = u * 0 + v * (tooth_width / 2) + w * (-(tooth_width / 2)) ∧
      0 ≤ p.2.2 ∧ p.2.2 ≤ thickness }

/-- State of the accumulator `teeth` after `n` iterations of the teeth loop
(lines 43-47): start from the empty `cq.Workplane("XY")`, and at iteration
`i` union in the copy of `toothSolid` rotated by `i * 360.0 / num_teeth`
degrees (line 45). -/
def teethLoop : ℕ → Shape
  | 0 => ∅
  | n + 1 => teethLoop n ∪ rotateShape ((n : ℝ) * 360 / (num_teeth : ℝ)) toothSolid

/-! ### Helper lemmas -/

/-- After `n` iterations the teeth accumulator is the union of the first `n`
rotated copies of the tooth. -/
theorem teethLoop_eq_biUnion (n : ℕ) :
    teethLoop n =
      ⋃ i ∈ Finset.range n,
        rotateShape ((i : ℝ) * 360 / (num_teeth : ℝ)) toothSolid := by
  induction n with
  | zero => simp [teethLoop]
  | succ n ih =>
      rw [teethLoop, ih, Finset.range_succ, Finset.set_biUnion_insert]
      exact Set.union_comm _ _

/-- `step_view.py` on at most 8 solids: no removal, original shape shown. -/
theorem stepViewRun_low {α : Type} (solids : List α) (h : solids.length ≤ 8) :
    stepViewRun solids =
      { messages :=
          ["Found " ++ toString solids.length ++ " solids in the original object.",
           "Fewer than 6 solids found, so none were removed."]
        kept := solids
        shownOriginal := true
        shownRemaining := false
        removalBranch := false
        screenshotWritten := true } := by
  have hn : ¬ 8 < solids.length := not_lt.mpr h
  simp [stepViewRun, hn]

/-- `step_view.py` on 9 to 13 solids: removal branch, nothing kept, no screenshot. -/
theorem stepViewRun_mid {α : Type} (solids : List α) (h : 8 < solids.length)
    (h13 : solids.length ≤ 13) :
    stepViewRun solids =
      { messages :=
          ["Found " ++ toString solids.length ++ " solids in the original object.",
           "Keeping " ++ toString (solids.length - 13) ++
             " solids after removing the first 5.",
           "No solids remaining after removal."]
        kept := []
        shownOriginal := false
        shownRemaining := false
        removalBranch := true
        screenshotWritten := false } := by
  have hd : solids.drop 13 = [] := List.drop_eq_nil_of_le h13
  have h0 : solids.length - 13 = 0 := Nat.sub_eq_zero_of_le h13
  simp [stepViewRun, h, hd, h0]

/-- `step_view.py` on more than 13 solids: removal branch, solids from index 13
on are kept and shown, screenshot written. -/
theorem stepViewRun_high {α : Type} (solids : List α) (h13 : 13 < solids.length) :
    stepViewRun solids =
      { messages :=
          ["Found " ++ toString solids.length ++ " solids in the original object.",
           "Keeping " ++ toString (solids.length - 13) ++
             " solids after removing the first 5.",
           "Showing the object with the first 5 solids removed."]
        kept := solids.drop 13
        shownOriginal := false
        shownRemaining := true
        removalBranch := true
        screenshotWritten := true } := by
  have h : 8 < solids.length := by omega
  have hne : (solids.drop 13).isEmpty = false := by
    simp [List.isEmpty_iff, List.drop_eq_nil_iff]
    omega
  simp [stepViewRun, h, hne, List.length_drop]

/-! ### The claims -/

/-- C1: exactly one script — the geared-wheel script — wraps its whole body
(everything except the nine constant parameter assignments) in a single broad
exception handler; the handler prints the exception message and the fixed
version/geometry hint and contains no `raise`; every other script contains no
try/except and no `raise` at all. -/
theorem C1_single_guarded_script :
    example4_geared_wheel = gearParams ++ [Stmt.tryExcept gearBody gearHandler] ∧
    gearParams.all isParamAssign = true ∧
    countTryL gearBody = 0 ∧
    gearHandler =
      [Stmt.printExcMessage "Error creating geared wheel: ",
       Stmt.printLine
         "This might be due to CadQuery version compatibility or geometry issues."] ∧
    countRaiseL gearHandler = 0 ∧
    (repoScripts.all (fun p =>
        p.1 == "examples/example4_geared_wheel.py" ||
          (countTryL p.2 == 0 && countRaiseL p.2 == 0))) = true ∧
    totalTrys = 1 := by
  refine ⟨rfl, rfl, rfl, rfl, rfl, ?_, ?_⟩ <;> decide

/-- C2: with `num_teeth = 20`, each iteration of the teeth loop unions into
the accumulator the copy of the fixed tooth profile rotated about the Z axis
by `i * 360 / num_teeth` degrees, and after the loop the accumulator is the
union of the `num_teeth` rotated copies. -/
theorem C2_teeth_circular_pattern :
    num_teeth = 20 ∧
    (∀ n : ℕ, teethLoop (n + 1) =
        teethLoop n ∪ rotateShape ((n : ℝ) * 360 / (num_teeth : ℝ)) toothSolid) ∧
    teethLoop num_teeth =
      ⋃ i ∈ Finset.range num_teeth,
        rotateShape ((i : ℝ) * 360 / (num_teeth : ℝ)) toothSolid :=
  ⟨rfl, fun _ => rfl, teethLoop_eq_biUnion num_teeth⟩

/-- C3 as stated is false: besides the one exception handler and the
solid-count conditional the repository also contains for-loops (four of them)
and a second conditional, so the census "1 try, 1 if, 0 loops" does not hold. -/
theorem C3_counterexample :
    ¬ (totalTrys = 1 ∧ totalIfs = 1 ∧ totalLoops = 0) := by
  decide

/-- C3 amended: the repository's only non-straight-line control flow is one
try/except handler (in the geared-wheel script), two conditionals (both in
the STEP viewing script: the solid-count branch and the nested non-emptiness
branch), and four for-loops (two in the geared-wheel script, one in the
dimension script, one in the inspection script). -/
theorem C3_control_flow_census :
    totalTrys = 1 ∧ countTryL example4_geared_wheel = 1 ∧
    totalIfs = 2 ∧ countIfL step_view = 2 ∧
    totalLoops = 4 ∧ countLoopL example4_geared_wheel = 2 ∧
    countLoopL step_dimension = 1 ∧ countLoopL test_py = 1 := by
  decide

/-- C4: when the imported shape has more than 8 solids, the kept sub-list is
the solids from index 13 on, the script prints that it removed the first 5
while reporting the kept count `total - 13`, and when the total is between 9
and 13 the kept list is empty, the script prints that no solids remain, and
no screenshot is produced. -/
theorem C4_removal_keeps_from_index_13 {α : Type} (solids : List α)
    (h : 8 < solids.length) :
    (stepViewRun solids).kept = solids.drop 13 ∧
    ("Keeping " ++ toString (solids.length - 13) ++
        " solids after removing the first 5.") ∈ (stepViewRun solids).messages ∧
    (solids.length ≤ 13 →
      (stepViewRun solids).kept = [] ∧
      "No solids remaining after removal." ∈ (stepViewRun solids).messages ∧
      (stepViewRun solids).screenshotWritten = false) := by
  rcases le_or_lt solids.length 13 with h13 | h13
  · rw [stepViewRun_mid solids h h13]
    have hd : solids.drop 13 = [] := List.drop_eq_nil_of_le h13
    exact ⟨hd.symm, by simp, fun _ => ⟨rfl, by simp, rfl⟩⟩
  · rw [stepViewRun_high solids h13]
    exact ⟨rfl, by simp, fun h' => absurd h13 (not_lt.mpr h')⟩

/-- Witness for C4 at a concrete 10-solid input. -/
theorem C4_removal_keeps_from_index_13_witness :
    8 < (List.range 10).length ∧
    ((stepViewRun (List.range 10)).kept = (List.range 10).drop 13 ∧
     ("Keeping " ++ toString ((List.range 10).length - 13) ++
         " solids after removing the first 5.") ∈
       (stepViewRun (List.range 10)).messages ∧
     ((List.range 10).length ≤ 13 →
       (stepViewRun (List.range 10)).kept = [] ∧
       "No solids remaining after removal." ∈ (stepViewRun (List.range 10)).messages ∧
       (stepViewRun (List.range 10)).screenshotWritten = false)) :=
  ⟨by decide, C4_removal_keeps_from_index_13 (List.range 10) (by decide)⟩

/-- C5 as stated is false: only one script (the STEP viewing script), not
two, invokes a visualization routine with fixed camera parameters. -/
theorem C5_counterexample : ¬ (scriptsWithCamParams = 2) := by
  decide

/-- C5 amended: exactly one script — the STEP viewing script — invokes a
visualization routine with fixed camera parameters, at exactly two call sites
(one in each branch); in particular the shell example passes none. -/
theorem C5_camera_call_sites :
    scriptsWithCamParams = 1 ∧ camSitesL step_view = 2 ∧ totalCamSites = 2 ∧
    camSitesL example_3_shell = 0 := by
  decide

/-- C6: the only output artifacts any script can write are `test2.svg` and
`img.png`; the colored-assembly script writes nothing, and the call that
would save `colored_assembly.step` sits in commented-out code. -/
theorem C6_output_artifacts :
    allWrites = ["test2.svg", "img.png", "img.png"] ∧
    allWrites.dedup = ["test2.svg", "img.png"] ∧
    writesOfL example_5_colors = [] ∧
    commentedWritesL example_5_colors = ["colored_assembly.step"] := by
  refine ⟨rfl, ?_, rfl, rfl⟩
  decide

/-- C7: every script that reads a STEP file reads exactly the one file
`test.step`; the four imports are the only input reads in the repository. -/
theorem C7_single_input_file :
    allReads = ["test.step", "test.step", "test.step", "test.step"] ∧
    (repoScripts.all (fun p =>
        readsOfL p.2 == ([] : List String) ||
          readsOfL p.2 == ["test.step"])) = true := by
  refine ⟨rfl, ?_⟩
  decide

/-- C8 as stated is false: the geared-wheel script contains two loops (teeth
and mounting holes), not exactly one. -/
theorem C8_counterexample : ¬ (countLoopL example4_geared_wheel = 1) := by
  decide

/-- C8 amended: the geared-wheel script contains exactly two loops — the
teeth loop and the mounting-holes loop — each a rotate-and-union loop with no
branching, no nested loop, no try/except and no `raise` inside, the script's
only failure recovery is the one blanket catch-and-print handler, and it
contains no conditional. -/
theorem C8_two_rotate_union_loops :
    countLoopL example4_geared_wheel = 2 ∧
    loopBodiesL example4_geared_wheel = [gearTeethLoopBody, gearHolesLoopBody] ∧
    ((loopBodiesL example4_geared_wheel).all (fun b =>
        countIfL b == 0 && countTryL b == 0 &&
          countLoopL b == 0 && countRaiseL b == 0)) = true ∧
    countTryL example4_geared_wheel = 1 ∧
    countIfL example4_geared_wheel = 0 := by
  refine ⟨rfl, rfl, ?_, rfl, rfl⟩
  decide

/-- C9: whenever the imported shape has at most 8 solids the STEP viewing
script prints exactly the found-count line and
"Fewer than 6 solids found, so none were removed.", visualizes the original
shape unchanged (with a screenshot), and does not take the removal branch;
the removal branch is taken only when the solid count exceeds 8. -/
theorem C9_low_count_branch {α : Type} (solids : List α) :
    (solids.length ≤ 8 →
      (stepViewRun solids).messages =
        ["Found " ++ toString solids.length ++ " solids in the original object.",
         "Fewer than 6 solids found, so none were removed."] ∧
      (stepViewRun solids).shownOriginal = true ∧
      (stepViewRun solids).kept = solids ∧
      (stepViewRun solids).removalBranch = false ∧
      (stepViewRun solids).screenshotWritten = true) ∧
    ((stepViewRun solids).removalBranch = true → 8 < solids.length) := by
  constructor
  · intro h
    rw [stepViewRun_low solids h]
    exact ⟨rfl, rfl, rfl, rfl, rfl⟩
  · intro hr
    by_contra hn
    have h : solids.length ≤ 8 := not_lt.mp hn
    rw [stepViewRun_low solids h] at hr
    exact Bool.false_ne_true hr

/-- Witness for C9 at a concrete 7-solid input. -/
theorem C9_low_count_branch_witness :
    (List.range 7).length ≤ 8 ∧
    ((stepViewRun (List.range 7)).messages =
        ["Found " ++ toString (List.range 7).length ++
           " solids in the original object.",
         "Fewer than 6 solids found, so none were removed."] ∧
      (stepViewRun (List.range 7)).shownOriginal = true ∧
      (stepViewRun (List.range 7)).kept = List.range 7 ∧
      (stepViewRun (List.range 7)).removalBranch = false ∧
      (stepViewRun (List.range 7)).screenshotWritten = true) :=
  ⟨by decide, (C9_low_count_branch (List.range 7)).1 (by decide)⟩

/-- C10: the colored-assembly script is straight-line (no branch, loop or
handler), always prints the assembly-saved message as its final print, and
writes no file at all — the save call exists only as commented-out code. -/
theorem C10_save_message_without_save :
    printsOfL example_5_colors =
      ["Assembly created with 3 colored parts:",
       "- Red box at origin",
       "- Blue cylinder at (20, 0, 0)",
       "- Green sphere at (0, 20, 0)",
       savedMsg] ∧
    savedMsg ∈ printsOfL example_5_colors ∧
    writesOfL example_5_colors = [] ∧
    commentedWritesL example_5_colors = ["colored_assembly.step"] ∧
    countIfL example_5_colors = 0 ∧
    countLoopL example_5_colors = 0 ∧
    countTryL example_5_colors = 0 := by
  refine ⟨rfl, ?_, rfl, rfl, rfl, rfl, rfl⟩
  exact List.Mem.tail _ (List.Mem.tail _ (List.Mem.tail _ (List.Mem.tail _ (List.Mem.head _))))

end CodeCad
